import Mathlib

/-!
# Verification of the mdCATH dataset builder (`builder/generator.py`)

This file shallowly embeds the batch-partitioning / parallel-build pipeline of
the mdCATH dataset builder and proves the frozen specification claims about it.

The authority for the embedding is `src/builder/generator.py`.  The collaborator
modules it imports (`scheduler.ComputationScheduler`, `trajManager.TrajectoryFileManager`,
`molAnalyzer.molAnalyzer`, `utils`) are not part of the repository sources, so
they are modelled from the specification where a claim needs them; each such
definition carries a doc comment starting with `Modelled from the spec:`.

Conventions:
* The filesystem is an association list from path strings to file contents;
  insertion is `cons` (latest entry shadows older ones), so "the run did not
  touch the filesystem" is literal equality of lists.
* Python exceptions are values of `PyErr`; the flag `isAssertion` distinguishes
  `AssertionError` (the only class caught by `generator.run`, line 71) from
  every other exception class.
* Collaborator behaviour is an oracle (`Collab`): `getTrajFiles` answers per
  (pdb, temperature, replica); `computeProperties` and `trajAnalysis` either
  raise or report which analyzer attributes they set.
-/

/-- A Python exception value.  `isAssertion = true` means the exception is an
`AssertionError`; `generator.run` catches exactly that class around trajectory
discovery (`except AssertionError as e`, line 71). -/
structure PyErr where
  isAssertion : Bool
  msg : String
deriving DecidableEq, Repr

/-- Log entries produced by the builder (`logger.info/warning/error`) and by the
driver's `print` in the `except` clause of `launch`. -/
inductive LogEntry
  | info (msg : String)
  | warning (msg : String)
  | error (msg : String)
  | printed (msg : String)
deriving DecidableEq, Repr

/-- A record of one collaborator invocation made while building one molecule;
used to state "no collaborator calls are made" claims. -/
inductive Call
  | analyzerInit (pdbFilePath : String)
  | getTrajFiles (pdb : String) (temp repl : Nat)
  | computeProperties
  | trajAnalysis (files : List String)
  | writeToH5Repl (temp repl : Nat)
  | writeToH5Mol
deriving DecidableEq, Repr

/-- The replica group `sims<temp>K/<repl>` of the scratch archive.  It is
created by `pdbTempGroup.create_group(str(repl))` (line 64) before discovery is
attempted; `dataWritten` records whether `write_toH5` stored replica data in it
(line 83). -/
structure ReplGroup where
  idx : Nat
  dataWritten : Bool
deriving DecidableEq, Repr

/-- The temperature group `sims<temp>K` of the scratch archive (line 62). -/
structure TempGroup where
  temp : Nat
  replicas : List ReplGroup
deriving DecidableEq, Repr

/-- The completed per-molecule archive: layout attribute (line 58), the
molecule group named after the pdb identifier (line 59) with its temperature
subtree, and the names of the molecule-level attributes actually serialized by
the final `write_toH5` call (line 86). -/
structure H5Artifact where
  layout : String
  molName : String
  tempGroups : List TempGroup
  molAttrs : List String
deriving DecidableEq, Repr

/-- Contents of a file in the modelled filesystem. -/
inductive FileContent
  | pdbInput
  | h5 (a : H5Artifact)
  | other
deriving DecidableEq, Repr

/-- The filesystem: an association list, newest entry first. -/
abbrev FS := List (String × FileContent)

/-- Lookup, first match wins (mirrors `os.path.exists` / reading a path). -/
def fsGet : FS → String → Option FileContent
  | [], _ => none
  | (q, c) :: rest, p => if q = p then some c else fsGet rest p

/-- Creating/overwriting a file at a path. -/
def fsSet (fs : FS) (p : String) (c : FileContent) : FS := (p, c) :: fs

/-- The configuration surface of the builder that the core reads
(`args.finaldatasetPath`, `args.pdbDir`, `args.temperatures`,
`args.numReplicas`, `args.pdbAttrs`). -/
structure Args where
  finaldatasetPath : String
  pdbDir : String
  temperatures : List Nat
  numReplicas : Nat
  pdbAttrs : List String
deriving DecidableEq, Repr

/-- The deterministic final output path
`opj(args.finaldatasetPath, f"cath_dataset_{pdb}.h5")` (line 50). -/
def resPath (args : Args) (pdb : String) : String :=
  args.finaldatasetPath ++ "/cath_dataset_" ++ pdb ++ ".h5"

/-- The primary structure input path `f"{args.pdbDir}/{pdb}.pdb"` (line 54). -/
def pdbPath (args : Args) (pdb : String) : String :=
  args.pdbDir ++ "/" ++ pdb ++ ".pdb"

/-- Mutable state of the `molAnalyzer` instance across the replica loop: whether
`computeProperties` has run, and whether the named attributes `forces` and
`traj` are present (`hasattr`, line 78).  The instance is created once per
molecule (line 60) and shared by all replicas. -/
structure AnalyzerState where
  propsComputed : Bool
  hasForces : Bool
  hasTraj : Bool
deriving DecidableEq, Repr

/-- The analyzer state right after construction: nothing computed yet. -/
def AnalyzerState.init : AnalyzerState := ⟨false, false, false⟩

/-- Oracle describing the behaviour of the external collaborators for one run.
`getTrajFiles` either returns the trajectory file list or raises;
`computeProperties` either succeeds (setting the molecule-level properties) or
raises; `trajAnalysis files` either raises or returns which of the attributes
(`forces`, `traj`) it sets. -/
structure Collab where
  getTrajFiles : String → Nat → Nat → Except PyErr (List String)
  computeProperties : Except PyErr Unit
  trajAnalysis : List String → Except PyErr (Bool × Bool)

/-- The dcd filename derivation `f.replace("9.xtc", "8.vel.dcd")` (line 67). -/
def dcdOf (f : String) : String := f.replace "9.xtc" "8.vel.dcd"

/-- One iteration of the replica loop (lines 63-83) for replica `repl` at
temperature `temp`.  The replica group is created first (line 64).  Trajectory
discovery is guarded by `except AssertionError` (lines 65-73): an
`AssertionError` is logged and the replica skipped; any other exception
propagates.  `computeProperties` / `trajAnalysis` (lines 75-77) are outside the
`try`, so any exception they raise propagates.  If after both analyses the
`forces` or `traj` attribute is absent, the replica is logged and skipped
(lines 78-80); otherwise its data is written (line 83). -/
def doReplica (collab : Collab) (pdb : String) (temp : Nat) (st : AnalyzerState)
    (repl : Nat) :
    Except PyErr (AnalyzerState × ReplGroup × List LogEntry × List Call) :=
  match collab.getTrajFiles pdb temp repl with
  | .error e =>
    if e.isAssertion then
      .ok (st, ⟨repl, false⟩, [.error e.msg], [.getTrajFiles pdb temp repl])
    else
      .error e
  | .ok trajFiles =>
    let dcdFiles := trajFiles.map dcdOf
    match collab.computeProperties with
    | .error e => .error e
    | .ok _ =>
      let st1 : AnalyzerState := { st with propsComputed := true }
      match collab.trajAnalysis trajFiles with
      | .error e => .error e
      | .ok (f1, t1) =>
        let st2 : AnalyzerState :=
          { st1 with hasForces := st1.hasForces || f1, hasTraj := st1.hasTraj || t1 }
        match collab.trajAnalysis dcdFiles with
        | .error e => .error e
        | .ok (f2, t2) =>
          let st3 : AnalyzerState :=
            { st2 with hasForces := st2.hasForces || f2, hasTraj := st2.hasTraj || t2 }
          let calls := [Call.getTrajFiles pdb temp repl, Call.computeProperties,
            Call.trajAnalysis trajFiles, Call.trajAnalysis dcdFiles]
          if st3.hasForces && st3.hasTraj then
            .ok (st3, ⟨repl, true⟩, [], calls ++ [.writeToH5Repl temp repl])
          else
            .ok (st3, ⟨repl, false⟩,
              [.error ("forces or traj not found for " ++ pdb)], calls)

/-- The inner `for repl in range(args.numReplicas)` loop at one temperature,
run over an explicit list of replica indices, threading the analyzer state and
collecting the created replica groups in order. -/
def doReplicaList (collab : Collab) (pdb : String) (temp : Nat) :
    AnalyzerState → List Nat →
    Except PyErr (AnalyzerState × List ReplGroup × List LogEntry × List Call)
  | st, [] => .ok (st, [], [], [])
  | st, r :: rs =>
    match doReplica collab pdb temp st r with
    | .error e => .error e
    | .ok (st', g, logs, calls) =>
      match doReplicaList collab pdb temp st' rs with
      | .error e => .error e
      | .ok (st'', gs, logs', calls') =>
        .ok (st'', g :: gs, logs ++ logs', calls ++ calls')

/-- The outer `for temp in args.temperatures` loop (lines 61-83): each
temperature group `sims<temp>K` is created (line 62) and filled by the replica
loop. -/
def doTempList (collab : Collab) (pdb : String) (numReplicas : Nat) :
    AnalyzerState → List Nat →
    Except PyErr (AnalyzerState × List TempGroup × List LogEntry × List Call)
  | st, [] => .ok (st, [], [], [])
  | st, t :: ts =>
    match doReplicaList collab pdb t st (List.range numReplicas) with
    | .error e => .error e
    | .ok (st', gs, logs, calls) =>
      match doTempList collab pdb numReplicas st' ts with
      | .error e => .error e
      | .ok (st'', tgs, logs', calls') =>
        .ok (st'', ⟨t, gs⟩ :: tgs, logs ++ logs', calls ++ calls')

/-- Possible per-identifier build outcomes. -/
inductive Outcome
  | Written
  | SkippedExists
  | SkippedMissingInput
deriving DecidableEq, Repr

/-- One iteration of the `for pdb in pbbIndices` loop of `generator.run`
(lines 46-89), building a single molecule:

1. a private scratch file is opened (`tempfile.NamedTemporaryFile`, line 47) —
   it lives outside the shared directory, so it does not appear in `fs`;
2. if the final output path already exists, skip (lines 50-53);
3. if the primary structure input is missing, warn and skip (lines 54-57);
4. otherwise the layout attribute and molecule group are written, the analyzer
   is constructed (line 60), the temperature/replica loops run, the
   molecule-level `write_toH5` call serializes whatever named attributes are
   present on the analyzer (line 86), and the completed scratch file is copied
   to the final path (line 89).

The molecule-level attributes serialized at line 86 exist on the analyzer only
if `computeProperties` ran (Modelled from the spec: `molAnalyzer.write_toH5`
"serializes a configurable subset of named attributes", and the analyzer
"exposes computed state as named attributes, absence of which signals
insufficient data"; `molAnalyzer` itself is not among the repository sources).

An uncaught exception escapes the loop body: the scratch file is discarded by
the `with` block and the exception propagates (the `.error` result). -/
def buildOne (args : Args) (collab : Collab) (fs : FS) (pdb : String) :
    Except PyErr (Outcome × FS × List LogEntry × List Call) :=
  let resFile := resPath args pdb
  if (fsGet fs resFile).isSome then
    .ok (.SkippedExists, fs,
      [.info ("h5py dataset for " ++ pdb ++ " already exists, skipping")], [])
  else if (fsGet fs (pdbPath args pdb)).isNone then
    .ok (.SkippedMissingInput, fs, [.warning (pdb ++ " does not exist")], [])
  else
    match doTempList collab pdb args.numReplicas AnalyzerState.init args.temperatures with
    | .error e => .error e
    | .ok (st, tgs, logs, calls) =>
      let artifact : H5Artifact :=
        ⟨"cath-dataset-only-protein", pdb, tgs,
         if st.propsComputed then args.pdbAttrs else []⟩
      .ok (.Written, fsSet fs resFile (.h5 artifact),
        logs ++ [.info ("Moving temporary file to: " ++ resFile)],
        Call.analyzerInit (pdbPath args pdb) :: calls ++ [.writeToH5Mol])

/-- A worker's batch: `generator.run` processes the identifiers of its batch
strictly sequentially; the first uncaught exception aborts the batch. -/
def runList (args : Args) (collab : Collab) :
    FS → List String → Except PyErr (List Outcome × FS)
  | fs, [] => .ok ([], fs)
  | fs, pdb :: rest =>
    match buildOne args collab fs pdb with
    | .error e => .error e
    | .ok (out, fs', _, _) =>
      match runList args collab fs' rest with
      | .error e => .error e
      | .ok (outs, fs'') => .ok (out :: outs, fs'')

/-! ## The batch scheduler

`scheduler.ComputationScheduler` is imported by `generator.py` but its module is
not among the repository sources, so it is modelled from the specification
(§4.1). -/

/-- Modelled from the spec: `ComputationScheduler` is "constructed from
`(batchSize, startBatch, numBatches, identifiers)`" (§4.1); the module
`scheduler` is not among the repository sources. -/
structure ComputationScheduler where
  batchSize : Nat
  startBatch : Option Nat
  numBatches : Nat
  identifiers : List String
deriving DecidableEq, Repr

/-- Modelled from the spec: the number of batches actually available,
`ceil(len(identifiers) / batchSize)` (§3), computed here as
`(len + batchSize - 1) / batchSize` in exact integer arithmetic. -/
def ComputationScheduler.availableBatches (s : ComputationScheduler) : Nat :=
  (s.identifiers.length + s.batchSize - 1) / s.batchSize

/-- Modelled from the spec: `process(batchIndex)` "returns the slice
`identifiers[batchIndex*batchSize : (batchIndex+1)*batchSize]`.  Fails with
`IndexError`-kind condition if `batchIndex` is outside `[0, numBatches)`"
(§4.1). -/
def ComputationScheduler.process (s : ComputationScheduler) (i : Nat) :
    Except String (List String) :=
  if i < s.numBatches then
    .ok ((s.identifiers.drop (i * s.batchSize)).take s.batchSize)
  else
    .error "IndexError: batch index out of range"

/-- Modelled from the spec: `getBatches()` returns "the run window, i.e.
`range(startBatch or 0, numBatches)`, clipped to available batches", ascending
(§4.1). -/
def ComputationScheduler.getBatches (s : ComputationScheduler) : List Nat :=
  (List.range (min s.numBatches s.availableBatches)).filter
    (fun i => s.startBatch.getD 0 ≤ i)

/-! ## The driver (`generator.launch`) -/

/-- The `numBatches` adjustment of `generator.launch` (lines 103-112): the base
count is `ceil(len(acceptedPDBs) / batchSize)`; if both `toRunBatches` and
`startBatch` are given the count becomes their sum; if only `toRunBatches` is
given it becomes `toRunBatches`; otherwise the base count stands. -/
def effectiveNumBatches (baseNumBatches : Nat)
    (startBatch toRunBatches : Option Nat) : Nat :=
  match toRunBatches, startBatch with
  | some t, some s => t + s
  | some t, none => t
  | none, _ => baseNumBatches

/-- The scheduler as constructed by `generator.launch` (lines 103-117). -/
def launchScheduler (batchSize : Nat) (startBatch toRunBatches : Option Nat)
    (acceptedPDBs : List String) : ComputationScheduler :=
  let numBatches := (acceptedPDBs.length + batchSize - 1) / batchSize
  ⟨batchSize, startBatch,
   effectiveNumBatches numBatches startBatch toRunBatches, acceptedPDBs⟩

/-- The result-retrieval semantics of `executor.map` as consumed by
`list(tqdm(...))` (lines 126-131): results are collected in submission order,
and the first task exception re-raises at retrieval, aborting collection. -/
def mapExcept (work : Nat → Except PyErr Unit) : List Nat → Except PyErr (List Unit)
  | [] => .ok []
  | b :: bs =>
    match work b with
    | .error e => .error e
    | .ok r =>
      match mapExcept work bs with
      | .error e => .error e
      | .ok rs => .ok (r :: rs)

/-- The driver's error policy (lines 124-134): the batched results are
collected inside `try`; `except Exception as e: print(e); raise e` prints the
first exception and re-raises it to the top level. -/
def launchDriver (work : Nat → Except PyErr Unit) (batches : List Nat) :
    Except PyErr (List Unit) × List LogEntry :=
  match mapExcept work batches with
  | .ok rs => (.ok rs, [])
  | .error e => (.error e, [.printed e.msg])

/-! ## Publication (`shutil.copyfile`, line 89)

`shutil.copyfile(tmpFile, resFile)` opens `resFile` for writing (creating or
truncating it) and then copies the source in bounded-size chunks.  The model
below lists the states of the final path that are observable from another
process during one publication: before the call the path is absent (`none`);
opening the destination makes an empty file appear; each chunk write extends it
by one chunk, ending with the complete content. -/

/-- The sequence of contents observable at the final output path while
`shutil.copyfile` publishes a completed scratch file whose byte content is the
chunk list `content`: absent, then every prefix of the chunk list in order. -/
def copyfileObservable (content : List Nat) : List (Option (List Nat)) :=
  none :: (List.range (content.length + 1)).map (fun k => some (content.take k))

/-- The outcome an identifier resolves to on a re-run over unchanged inputs:
a previously written (or already existing) artifact is skipped as existing;
an identifier with missing structure input is skipped for missing input
again. -/
def secondOutcome : Outcome → Outcome
  | .Written => .SkippedExists
  | o => o

/-! ## Concrete test fixtures

Small closed instances used to evaluate the model on concrete inputs. -/

/-- A minimal configuration: one temperature, one replica. -/
def exArgs : Args := ⟨"out", "inp", [320], 1, ["numResidues"]⟩

/-- A filesystem holding only the structure input for identifier `x`. -/
def exFS : FS := [("inp/x.pdb", .pdbInput)]

/-- Collaborators whose trajectory discovery always fails with the recoverable
`AssertionError` condition. -/
def discFailCollab : Collab :=
  ⟨fun _ _ _ => .error ⟨true, "no traj files"⟩, .ok (), fun _ => .ok (true, true)⟩

/-- Collaborators whose analysis call raises an unexpected (non-assertion)
exception. -/
def crashCollab : Collab :=
  ⟨fun _ _ _ => .ok ["f9.xtc"], .ok (), fun _ => .error ⟨false, "analyzer crash"⟩⟩

/-- Collaborators for which every call succeeds. -/
def okCollab : Collab :=
  ⟨fun _ _ _ => .ok ["f9.xtc"], .ok (), fun _ => .ok (true, true)⟩

/-- The artifact produced for `x` when every trajectory discovery fails: all
groups present and empty, no molecule-level attributes. -/
def discFailArtifact : H5Artifact :=
  ⟨"cath-dataset-only-protein", "x", [⟨320, [⟨0, false⟩]⟩], []⟩

/-- The filesystem after building `x` under `discFailCollab`. -/
def discFailFS : FS :=
  [("out/cath_dataset_x.h5", .h5 discFailArtifact), ("inp/x.pdb", .pdbInput)]

/-- The log of building `x` under `discFailCollab`. -/
def discFailLogs : List LogEntry :=
  [.error "no traj files", .info "Moving temporary file to: out/cath_dataset_x.h5"]

/-- The collaborator calls made while building `x` under `discFailCollab`:
discovery is attempted once per replica, `computeProperties` never runs. -/
def discFailCalls : List Call :=
  [.analyzerInit "inp/x.pdb", .getTrajFiles "x" 320 0, .writeToH5Mol]

/-- The artifact produced for `x` when every collaborator call succeeds. -/
def okArtifact : H5Artifact :=
  ⟨"cath-dataset-only-protein", "x", [⟨320, [⟨0, true⟩]⟩], ["numResidues"]⟩

/-- The filesystem after a first full run over `["x", "y"]` under `okCollab`
starting from `exFS` (`x` written, `y` skipped for missing input). -/
def okFS1 : FS :=
  [("out/cath_dataset_x.h5", .h5 okArtifact), ("inp/x.pdb", .pdbInput)]

/-! ## Helper lemmas -/

theorem fsGet_fsSet (fs : FS) (p : String) (c : FileContent) :
    fsGet (fsSet fs p c) p = some c := by
  simp [fsGet, fsSet]

theorem fsGet_fsSet_ne (fs : FS) (p q : String) (c : FileContent) (h : p ≠ q) :
    fsGet (fsSet fs p c) q = fsGet fs q := by
  simp [fsGet, fsSet, h]

theorem flatten_batch_slices (bs : Nat) (l : List String) :
    ∀ n, ((List.range n).map (fun i => (l.drop (i * bs)).take bs)).flatten
      = l.take (n * bs)
  | 0 => by simp
  | n + 1 => by
    rw [List.range_succ, List.map_append, List.flatten_append,
      flatten_batch_slices bs l n]
    simp only [List.map_cons, List.map_nil, List.flatten_cons, List.flatten_nil,
      List.append_nil]
    rw [Nat.succ_mul, List.take_add]

theorem ceil_div_bounds (len bs n : Nat) (hbs : 0 < bs)
    (hn : n = (len + bs - 1) / bs) :
    len ≤ n * bs ∧ (0 < n → (n - 1) * bs < len) := by
  have hdm : bs * ((len + bs - 1) / bs) + (len + bs - 1) % bs = len + bs - 1 :=
    Nat.div_add_mod _ _
  rw [← hn] at hdm
  have hr : (len + bs - 1) % bs < bs := Nat.mod_lt _ hbs
  have hmul : n * bs = bs * n := Nat.mul_comm _ _
  have hsub : (n - 1) * bs = bs * n - bs := by rw [Nat.sub_one_mul, hmul]
  obtain ⟨hA, hB⟩ : len ≤ bs * n ∧ (0 < n → bs * n - bs < len) := by
    have hge : 0 < n → bs ≤ bs * n := fun h =>
      le_mul_of_one_le_right (Nat.zero_le bs) h
    generalize bs * n = Q at hdm hge ⊢
    exact ⟨by omega, fun h0 => by have := hge h0; omega⟩
  exact ⟨by rw [hmul]; exact hA, fun h0 => by rw [hsub]; exact hB h0⟩

/-! ## Claim theorems -/

/-- C4: when both `startBatch` and `toRunBatches` are given, the effective
total batch count used to construct the scheduler equals
`startBatch + toRunBatches` (inflated by `startBatch`, not set to
`toRunBatches` alone), so every batch index below `startBatch` is counted
toward the total yet excluded from the run list. -/
theorem numBatches_inflated_by_startBatch (base s t bs : Nat) (ids : List String) :
    effectiveNumBatches base (some s) (some t) = s + t ∧
    (launchScheduler bs (some s) (some t) ids).numBatches = s + t ∧
    (∀ i, i < s → i < s + t ∧
      i ∉ (launchScheduler bs (some s) (some t) ids).getBatches) := by
  refine ⟨by simp [effectiveNumBatches, Nat.add_comm],
    by simp [launchScheduler, effectiveNumBatches, Nat.add_comm], ?_⟩
  intro i hi
  refine ⟨by omega, fun hmem => ?_⟩
  simp only [ComputationScheduler.getBatches, List.mem_filter, List.mem_range,
    launchScheduler, Option.getD_some, decide_eq_true_eq] at hmem
  omega

theorem numBatches_inflated_by_startBatch_witness :
    (0 < 1 ∧ (launchScheduler 2 (some 1) (some 1) ["a", "b", "c", "d", "e"]).numBatches = 2 ∧
      0 ∉ (launchScheduler 2 (some 1) (some 1) ["a", "b", "c", "d", "e"]).getBatches) :=
  ⟨by decide,
   (numBatches_inflated_by_startBatch 3 1 1 2 ["a", "b", "c", "d", "e"]).2.1,
   ((numBatches_inflated_by_startBatch 3 1 1 2 ["a", "b", "c", "d", "e"]).2.2 0
     (by decide)).2⟩

/-- C7: `getBatches()` is a deterministic, side-effect-free function of the
constructor arguments: schedulers constructed with identical arguments yield
identical batch sequences, the sequence is strictly ascending, and it is
exactly the run window `range(startBatch or 0, numBatches)` clipped to the
available batches; on the spec scenario (`batchSize=2`, `startBatch=1`,
`toRunBatches=1`, five identifiers) the run list is `[1]` which maps to
`["c","d"]`. -/
theorem getBatches_deterministic (s1 s2 : ComputationScheduler)
    (hb : s1.batchSize = s2.batchSize) (hs : s1.startBatch = s2.startBatch)
    (hn : s1.numBatches = s2.numBatches) (hi : s1.identifiers = s2.identifiers) :
    s1.getBatches = s2.getBatches ∧
    List.Pairwise (· < ·) s1.getBatches ∧
    (∀ i, i ∈ s1.getBatches ↔
      s1.startBatch.getD 0 ≤ i ∧ i < min s1.numBatches s1.availableBatches) ∧
    (launchScheduler 2 (some 1) (some 1) ["a", "b", "c", "d", "e"]).getBatches = [1] ∧
    (launchScheduler 2 (some 1) (some 1) ["a", "b", "c", "d", "e"]).process 1 =
      .ok ["c", "d"] := by
  obtain ⟨b1, st1, n1, id1⟩ := s1
  obtain ⟨b2, st2, n2, id2⟩ := s2
  dsimp only at hb hs hn hi
  subst hb hs hn hi
  refine ⟨rfl, List.Pairwise.filter _ (List.pairwise_lt_range _), ?_, by decide, rfl⟩
  intro i
  simp only [ComputationScheduler.getBatches, List.mem_filter, List.mem_range,
    decide_eq_true_eq]
  constructor
  · rintro ⟨h1, h2⟩; exact ⟨h2, h1⟩
  · rintro ⟨h1, h2⟩; exact ⟨h2, h1⟩

theorem getBatches_deterministic_witness :
    (⟨2, some 1, 2, ["a", "b"]⟩ : ComputationScheduler).getBatches =
      (⟨2, some 1, 2, ["a", "b"]⟩ : ComputationScheduler).getBatches ∧
    (1 ∈ (⟨2, some 1, 2, ["a", "b"]⟩ : ComputationScheduler).getBatches ↔
      (some 1).getD 0 ≤ 1 ∧ 1 < min 2 (⟨2, some 1, 2, ["a", "b"]⟩ : ComputationScheduler).availableBatches) :=
  ⟨(getBatches_deterministic ⟨2, some 1, 2, ["a", "b"]⟩ ⟨2, some 1, 2, ["a", "b"]⟩
      rfl rfl rfl rfl).1,
   (getBatches_deterministic ⟨2, some 1, 2, ["a", "b"]⟩ ⟨2, some 1, 2, ["a", "b"]⟩
      rfl rfl rfl rfl).2.2.1 1⟩

/-- C6: with `numBatches = ceil(len(identifiers)/batchSize)`, `process i`
returns the slice `identifiers[i*batchSize : (i+1)*batchSize]` for
`i ∈ [0, numBatches)` and fails outside that range; the batches, in index
order, are pairwise disjoint slices that concatenate back to the identifier
list without gaps, their lengths sum to `len(identifiers)`, every non-final
batch is full, and no batch exceeds `batchSize`. -/
theorem scheduler_partition (s : ComputationScheduler)
    (hbs : 0 < s.batchSize) (hn : s.numBatches = s.availableBatches) :
    (∀ i, i < s.numBatches →
      s.process i = .ok ((s.identifiers.drop (i * s.batchSize)).take s.batchSize)) ∧
    (∀ i, s.numBatches ≤ i →
      s.process i = .error "IndexError: batch index out of range") ∧
    ((List.range s.numBatches).map
      (fun i => (s.identifiers.drop (i * s.batchSize)).take s.batchSize)).flatten
      = s.identifiers ∧
    ((List.range s.numBatches).map
      (fun i => ((s.identifiers.drop (i * s.batchSize)).take s.batchSize).length)).sum
      = s.identifiers.length ∧
    (∀ i, i + 1 < s.numBatches →
      ((s.identifiers.drop (i * s.batchSize)).take s.batchSize).length = s.batchSize) ∧
    (∀ i, ((s.identifiers.drop (i * s.batchSize)).take s.batchSize).length ≤ s.batchSize) := by
  obtain ⟨hA, hB⟩ := ceil_div_bounds s.identifiers.length s.batchSize s.numBatches hbs
    (by rw [hn]; rfl)
  have hflat : ((List.range s.numBatches).map
      (fun i => (s.identifiers.drop (i * s.batchSize)).take s.batchSize)).flatten
      = s.identifiers := by
    rw [flatten_batch_slices]
    exact List.take_of_length_le hA
  refine ⟨?_, ?_, hflat, ?_, ?_, ?_⟩
  · intro i hi
    rw [ComputationScheduler.process, if_pos hi]
  · intro i hi
    rw [ComputationScheduler.process, if_neg (by omega)]
  · calc ((List.range s.numBatches).map
        (fun i => ((s.identifiers.drop (i * s.batchSize)).take s.batchSize).length)).sum
        = (((List.range s.numBatches).map
            (fun i => (s.identifiers.drop (i * s.batchSize)).take s.batchSize)).map
              List.length).sum := by
          rw [List.map_map]; rfl
      _ = (((List.range s.numBatches).map
            (fun i => (s.identifiers.drop (i * s.batchSize)).take s.batchSize)).flatten).length := by
          rw [List.length_flatten]
      _ = s.identifiers.length := by rw [hflat]
  · intro i hi
    have hmono : (i + 1) * s.batchSize ≤ (s.numBatches - 1) * s.batchSize :=
      Nat.mul_le_mul_right _ (by omega)
    have hlt : (s.numBatches - 1) * s.batchSize < s.identifiers.length :=
      hB (by omega)
    have hsucc : (i + 1) * s.batchSize = i * s.batchSize + s.batchSize :=
      Nat.succ_mul i s.batchSize
    rw [List.length_take, List.length_drop]
    generalize i * s.batchSize = A at hmono hsucc ⊢
    generalize (i + 1) * s.batchSize = B at hmono hsucc
    generalize (s.numBatches - 1) * s.batchSize = C at hmono hlt
    omega
  · intro i
    exact List.length_take_le _ _

theorem scheduler_partition_witness :
    (0 < 2 ∧
      (⟨2, none, 3, ["a", "b", "c", "d", "e"]⟩ : ComputationScheduler).numBatches =
        (⟨2, none, 3, ["a", "b", "c", "d", "e"]⟩ : ComputationScheduler).availableBatches) ∧
    (⟨2, none, 3, ["a", "b", "c", "d", "e"]⟩ : ComputationScheduler).process 1 =
      .ok ["c", "d"] ∧
    (⟨2, none, 3, ["a", "b", "c", "d", "e"]⟩ : ComputationScheduler).process 3 =
      .error "IndexError: batch index out of range" :=
  ⟨⟨by decide, by decide⟩,
   (scheduler_partition ⟨2, none, 3, ["a", "b", "c", "d", "e"]⟩ (by decide)
     (by decide)).1 1 (by decide),
   (scheduler_partition ⟨2, none, 3, ["a", "b", "c", "d", "e"]⟩ (by decide)
     (by decide)).2.1 3 (by decide)⟩

/-- C1 counterexample: during publication by `shutil.copyfile` (line 89) a
partially written file IS observable at the final path.  For a completed
scratch file with chunk content `[7]`, the observable trace contains the state
`some []` (the file exists but is empty), which is neither "absent" nor
"complete".  This refutes the claim that the file at the final path is at every
moment either absent or complete. -/
theorem copyfile_partial_state_observable :
    ¬ (∀ obs ∈ copyfileObservable [7], obs = none ∨ obs = some [7]) := by
  decide

/-- C1 (amended): publication is a single copy of the completed temporary file
to the final path: before the copy the path is absent, after the copy completes
the path holds exactly the completed content, and every state observable during
the copy is a (possibly partial) prefix of the completed content — so an
observer may see a partially written file mid-copy, because `shutil.copyfile`
writes the destination in place rather than renaming a finished file. -/
theorem copyfile_publish_states (content : List Nat) :
    (copyfileObservable content).head? = some none ∧
    (copyfileObservable content).getLast? = some (some content) ∧
    ∀ obs ∈ copyfileObservable content, obs = none ∨
      ∃ k, k ≤ content.length ∧ obs = some (content.take k) := by
  refine ⟨rfl, ?_, ?_⟩
  · have hsplit : copyfileObservable content
        = (none :: (List.range content.length).map (fun k => some (content.take k)))
          ++ [some (content.take content.length)] := by
      rw [copyfileObservable, List.range_succ, List.map_append]
      rfl
    rw [hsplit, List.getLast?_concat, List.take_length]
  · intro obs hobs
    simp only [copyfileObservable, List.mem_cons, List.mem_map,
      List.mem_range] at hobs
    rcases hobs with h | ⟨k, hk, hke⟩
    · exact .inl h
    · exact .inr ⟨k, by omega, hke.symm⟩

theorem copyfile_publish_states_witness :
    (some ([] : List Nat) ∈ copyfileObservable [7]) ∧
    (some ([] : List Nat) = none ∨
      ∃ k, k ≤ ([7] : List Nat).length ∧
        some ([] : List Nat) = some (([7] : List Nat).take k)) :=
  ⟨by decide, (copyfile_publish_states [7]).2.2 (some []) (by decide)⟩

theorem runList_error_of_mid (args : Args) (collab : Collab) :
    ∀ (pre : List String) (fs : FS) (outs : List Outcome) (fs' : FS)
      (pdb : String) (rest : List String) (e : PyErr),
      runList args collab fs pre = .ok (outs, fs') →
      buildOne args collab fs' pdb = .error e →
      runList args collab fs (pre ++ pdb :: rest) = .error e
  | [], fs, outs, fs', pdb, rest, e => fun h1 h2 => by
    simp only [runList, Except.ok.injEq, Prod.mk.injEq] at h1
    obtain ⟨h3, h4⟩ := h1
    subst h4
    simp only [List.nil_append, runList, h2]
  | p :: ps, fs, outs, fs', pdb, rest, e => fun h1 h2 => by
    simp only [runList] at h1
    cases hb : buildOne args collab fs p with
    | error e' => simp only [hb] at h1; exact absurd h1 (by simp)
    | ok q =>
      obtain ⟨out, fs1, logs, calls⟩ := q
      simp only [hb] at h1
      cases hr : runList args collab fs1 ps with
      | error e' => simp only [hr] at h1; exact absurd h1 (by simp)
      | ok r =>
        obtain ⟨outs1, fs2⟩ := r
        simp only [hr, Except.ok.injEq, Prod.mk.injEq] at h1
        obtain ⟨h3, h4⟩ := h1
        subst h4
        have ih := runList_error_of_mid args collab ps fs1 outs1 fs2 pdb rest e hr h2
        simp only [List.cons_append, runList, hb, List.append_eq, ih]

/-- C8: an unexpected exception (one that matches no recoverable condition)
propagates: if the builder raises while processing one identifier of a batch,
the whole batch run errors with that same exception (the remaining identifiers
are never processed), and the driver, on retrieving the first failed result,
prints the exception and re-raises it, aborting the entire run. -/
theorem unexpected_error_aborts_run :
    (∀ (args : Args) (collab : Collab) (fs : FS) (pre : List String)
      (outs : List Outcome) (fs' : FS) (pdb : String) (rest : List String)
      (e : PyErr),
      runList args collab fs pre = .ok (outs, fs') →
      buildOne args collab fs' pdb = .error e →
      runList args collab fs (pre ++ pdb :: rest) = .error e) ∧
    (∀ (work : Nat → Except PyErr Unit) (batches : List Nat) (e : PyErr),
      mapExcept work batches = .error e →
      launchDriver work batches = (.error e, [.printed e.msg])) := by
  refine ⟨fun args collab fs pre outs fs' pdb rest e h1 h2 =>
    runList_error_of_mid args collab pre fs outs fs' pdb rest e h1 h2,
    fun work batches e h => ?_⟩
  simp [launchDriver, h]

theorem unexpected_error_aborts_run_witness :
    (runList exArgs crashCollab exFS [] = .ok ([], exFS) ∧
      buildOne exArgs crashCollab exFS "x" = .error ⟨false, "analyzer crash"⟩ ∧
      runList exArgs crashCollab exFS ([] ++ "x" :: ["z"]) =
        .error ⟨false, "analyzer crash"⟩) ∧
    (mapExcept (fun _ => .error ⟨false, "boom"⟩) [0] = .error ⟨false, "boom"⟩ ∧
      launchDriver (fun _ => .error ⟨false, "boom"⟩) [0] =
        (.error ⟨false, "boom"⟩, [.printed "boom"])) :=
  ⟨⟨rfl, rfl,
    unexpected_error_aborts_run.1 exArgs crashCollab exFS [] [] exFS "x" ["z"]
      ⟨false, "analyzer crash"⟩ rfl rfl⟩,
   rfl,
   unexpected_error_aborts_run.2 (fun _ => .error ⟨false, "boom"⟩) [0]
     ⟨false, "boom"⟩ rfl⟩

/-- C9: for an identifier whose primary structure input does not exist (and
whose output artifact does not already exist), the build returns
`SkippedMissingInput`, logs a warning, makes no collaborator call, leaves the
filesystem untouched (no artifact is created at the final path), and the batch
run continues with the remaining identifiers, their results unchanged. -/
theorem missing_input_skipped (args : Args) (collab : Collab) (fs : FS)
    (pdb : String) (rest : List String)
    (hres : fsGet fs (resPath args pdb) = none)
    (hpdb : fsGet fs (pdbPath args pdb) = none) :
    buildOne args collab fs pdb =
      .ok (.SkippedMissingInput, fs, [.warning (pdb ++ " does not exist")], []) ∧
    runList args collab fs (pdb :: rest) =
      (runList args collab fs rest).map
        (fun p => (Outcome.SkippedMissingInput :: p.1, p.2)) := by
  have hb : buildOne args collab fs pdb =
      .ok (.SkippedMissingInput, fs, [.warning (pdb ++ " does not exist")], []) := by
    simp [buildOne, hres, hpdb]
  refine ⟨hb, ?_⟩
  simp only [runList, hb]
  cases hr : runList args collab fs rest <;> simp [Except.map]

theorem missing_input_skipped_witness :
    (fsGet [] (resPath exArgs "y") = none ∧
      fsGet [] (pdbPath exArgs "y") = none) ∧
    (buildOne exArgs okCollab [] "y" =
      .ok (.SkippedMissingInput, [], [.warning ("y" ++ " does not exist")], []) ∧
     runList exArgs okCollab [] ["y", "z"] =
      (runList exArgs okCollab [] ["z"]).map
        (fun p => (Outcome.SkippedMissingInput :: p.1, p.2))) :=
  ⟨⟨rfl, rfl⟩, missing_input_skipped exArgs okCollab [] "y" ["z"] rfl rfl⟩

theorem doReplica_group_idx (collab : Collab) (pdb : String) (temp : Nat)
    (st : AnalyzerState) (repl : Nat) (st' : AnalyzerState) (g : ReplGroup)
    (logs : List LogEntry) (calls : List Call)
    (h : doReplica collab pdb temp st repl = .ok (st', g, logs, calls)) :
    g.idx = repl := by
  cases hg : collab.getTrajFiles pdb temp repl with
  | error e =>
    simp only [doReplica, hg] at h
    split at h
    · simp only [Except.ok.injEq, Prod.mk.injEq] at h
      obtain ⟨-, hgg, -, -⟩ := h
      subst hgg
      rfl
    · exact absurd h (by simp)
  | ok files =>
    simp only [doReplica, hg] at h
    cases hc : collab.computeProperties with
    | error e => simp only [hc] at h; exact absurd h (by simp)
    | ok u =>
      simp only [hc] at h
      cases h1 : collab.trajAnalysis files with
      | error e => simp only [h1] at h; exact absurd h (by simp)
      | ok p1 =>
        obtain ⟨f1, t1⟩ := p1
        simp only [h1] at h
        cases h2 : collab.trajAnalysis (files.map dcdOf) with
        | error e => simp only [h2] at h; exact absurd h (by simp)
        | ok p2 =>
          obtain ⟨f2, t2⟩ := p2
          simp only [h2] at h
          split at h <;>
            · simp only [Except.ok.injEq, Prod.mk.injEq] at h
              obtain ⟨-, hgg, -, -⟩ := h
              subst hgg
              rfl

theorem doReplicaList_shape (collab : Collab) (pdb : String) (temp : Nat) :
    ∀ (rs : List Nat) (st st' : AnalyzerState) (gs : List ReplGroup)
      (logs : List LogEntry) (calls : List Call),
      doReplicaList collab pdb temp st rs = .ok (st', gs, logs, calls) →
      gs.map ReplGroup.idx = rs
  | [], st, st', gs, logs, calls => fun h => by
    simp only [doReplicaList, Except.ok.injEq, Prod.mk.injEq] at h
    obtain ⟨-, hgs, -, -⟩ := h
    subst hgs
    rfl
  | r :: rs, st, st', gs, logs, calls => fun h => by
    simp only [doReplicaList] at h
    cases hd : doReplica collab pdb temp st r with
    | error e => simp only [hd] at h; exact absurd h (by simp)
    | ok q =>
      obtain ⟨st1, g, logs1, calls1⟩ := q
      simp only [hd] at h
      cases hl : doReplicaList collab pdb temp st1 rs with
      | error e => simp only [hl] at h; exact absurd h (by simp)
      | ok q2 =>
        obtain ⟨st2, gs2, logs2, calls2⟩ := q2
        simp only [hl, Except.ok.injEq, Prod.mk.injEq] at h
        obtain ⟨-, hgs, -, -⟩ := h
        subst hgs
        have hidx := doReplica_group_idx collab pdb temp st r st1 g logs1 calls1 hd
        have ih := doReplicaList_shape collab pdb temp rs st1 st2 gs2 logs2 calls2 hl
        simp [hidx, ih]

theorem doTempList_shape (collab : Collab) (pdb : String) (nR : Nat) :
    ∀ (ts : List Nat) (st st' : AnalyzerState) (tgs : List TempGroup)
      (logs : List LogEntry) (calls : List Call),
      doTempList collab pdb nR st ts = .ok (st', tgs, logs, calls) →
      tgs.map TempGroup.temp = ts ∧
      ∀ tg ∈ tgs, tg.replicas.map ReplGroup.idx = List.range nR
  | [], st, st', tgs, logs, calls => fun h => by
    simp only [doTempList, Except.ok.injEq, Prod.mk.injEq] at h
    obtain ⟨-, htgs, -, -⟩ := h
    subst htgs
    exact ⟨rfl, by simp⟩
  | t :: ts, st, st', tgs, logs, calls => fun h => by
    simp only [doTempList] at h
    cases hd : doReplicaList collab pdb t st (List.range nR) with
    | error e => simp only [hd] at h; exact absurd h (by simp)
    | ok q =>
      obtain ⟨st1, gs, logs1, calls1⟩ := q
      simp only [hd] at h
      cases hl : doTempList collab pdb nR st1 ts with
      | error e => simp only [hl] at h; exact absurd h (by simp)
      | ok q2 =>
        obtain ⟨st2, tgs2, logs2, calls2⟩ := q2
        simp only [hl, Except.ok.injEq, Prod.mk.injEq] at h
        obtain ⟨-, htgs, -, -⟩ := h
        subst htgs
        have hgs := doReplicaList_shape collab pdb t (List.range nR) st st1 gs
          logs1 calls1 hd
        obtain ⟨ih1, ih2⟩ := doTempList_shape collab pdb nR ts st1 st2 tgs2
          logs2 calls2 hl
        refine ⟨by simp [ih1], ?_⟩
        intro tg htg
        rcases List.mem_cons.mp htg with h | h
        · subst h
          exact hgs
        · exact ih2 tg h

/-- C10: whenever a molecule build publishes an artifact, the artifact contains
the group `sims<temperature>K/<replica>` for every configured (temperature,
replica) combination — the groups are created before trajectory discovery is
attempted, so even replicas whose discovery failed appear (as empty groups). -/
theorem written_artifact_complete_groups (args : Args) (collab : Collab)
    (fs : FS) (pdb : String) (fs' : FS) (logs : List LogEntry)
    (calls : List Call)
    (h : buildOne args collab fs pdb = .ok (.Written, fs', logs, calls)) :
    ∃ a : H5Artifact,
      fsGet fs' (resPath args pdb) = some (.h5 a) ∧
      a.molName = pdb ∧
      a.layout = "cath-dataset-only-protein" ∧
      a.tempGroups.map TempGroup.temp = args.temperatures ∧
      ∀ tg ∈ a.tempGroups,
        tg.replicas.map ReplGroup.idx = List.range args.numReplicas := by
  simp only [buildOne] at h
  split at h
  · exact absurd h (by simp)
  · split at h
    · exact absurd h (by simp)
    · cases hdt : doTempList collab pdb args.numReplicas AnalyzerState.init
        args.temperatures with
      | error e => simp only [hdt] at h; exact absurd h (by simp)
      | ok q =>
        obtain ⟨st, tgs, logs0, calls0⟩ := q
        simp only [hdt, Except.ok.injEq, Prod.mk.injEq, true_and] at h
        obtain ⟨hfs, -, -⟩ := h
        obtain ⟨hmap, hall⟩ := doTempList_shape collab pdb args.numReplicas
          args.temperatures AnalyzerState.init st tgs logs0 calls0 hdt
        refine ⟨⟨"cath-dataset-only-protein", pdb, tgs,
          if st.propsComputed = true then args.pdbAttrs else []⟩,
          ?_, rfl, rfl, hmap, hall⟩
        rw [← hfs]
        exact fsGet_fsSet fs (resPath args pdb) _

theorem written_artifact_complete_groups_witness :
    buildOne exArgs discFailCollab exFS "x" =
      .ok (.Written, discFailFS, discFailLogs, discFailCalls) ∧
    ∃ a : H5Artifact,
      fsGet discFailFS (resPath exArgs "x") = some (.h5 a) ∧
      a.molName = "x" ∧
      a.layout = "cath-dataset-only-protein" ∧
      a.tempGroups.map TempGroup.temp = exArgs.temperatures ∧
      ∀ tg ∈ a.tempGroups,
        tg.replicas.map ReplGroup.idx = List.range exArgs.numReplicas :=
  ⟨rfl, written_artifact_complete_groups exArgs discFailCollab exFS "x"
    discFailFS discFailLogs discFailCalls rfl⟩

/-- C2 counterexample: an exception raised by the analysis collaborator while
processing a single replica is NOT contained.  With `crashCollab`, whose
`trajAnalysis` raises, the exception propagates out of the replica iteration
(step 4c) and aborts the whole molecule build — refuting the claim that such
an error is logged and causes only that replica to be skipped. -/
theorem analysis_error_aborts_molecule :
    doReplica crashCollab "x" 320 AnalyzerState.init 0 =
      .error ⟨false, "analyzer crash"⟩ ∧
    buildOne exArgs crashCollab exFS "x" = .error ⟨false, "analyzer crash"⟩ :=
  ⟨rfl, rfl⟩

/-- C2 (amended): per-replica containment holds exactly for the
`AssertionError` raised by trajectory discovery: it is logged, the replica is
skipped with its (empty) group kept, and the loop continues with the remaining
replicas of the molecule; but an exception raised by the analysis collaborator
(`trajAnalysis`) is outside the `try` block, is not caught, and propagates,
aborting the molecule build. -/
theorem replica_error_containment :
    (∀ (collab : Collab) (pdb : String) (temp : Nat) (st : AnalyzerState)
      (repl : Nat) (e : PyErr),
      collab.getTrajFiles pdb temp repl = .error e → e.isAssertion = true →
      doReplica collab pdb temp st repl =
        .ok (st, ⟨repl, false⟩, [.error e.msg], [.getTrajFiles pdb temp repl])) ∧
    (∀ (collab : Collab) (pdb : String) (temp : Nat) (st : AnalyzerState)
      (repl : Nat) (rs : List Nat) (e : PyErr),
      collab.getTrajFiles pdb temp repl = .error e → e.isAssertion = true →
      doReplicaList collab pdb temp st (repl :: rs) =
        (doReplicaList collab pdb temp st rs).map
          (fun q => (q.1, (⟨repl, false⟩ : ReplGroup) :: q.2.1,
            LogEntry.error e.msg :: q.2.2.1,
            Call.getTrajFiles pdb temp repl :: q.2.2.2))) ∧
    (∀ (collab : Collab) (pdb : String) (temp : Nat) (st : AnalyzerState)
      (repl : Nat) (files : List String) (e : PyErr),
      collab.getTrajFiles pdb temp repl = .ok files →
      collab.computeProperties = .ok () →
      collab.trajAnalysis files = .error e →
      doReplica collab pdb temp st repl = .error e) := by
  refine ⟨fun collab pdb temp st repl e hg ha => ?_,
    fun collab pdb temp st repl rs e hg ha => ?_,
    fun collab pdb temp st repl files e hg hc ht => ?_⟩
  · simp [doReplica, hg, ha]
  · have h1 : doReplica collab pdb temp st repl =
        .ok (st, ⟨repl, false⟩, [.error e.msg], [.getTrajFiles pdb temp repl]) := by
      simp [doReplica, hg, ha]
    simp only [doReplicaList, h1]
    cases hr : doReplicaList collab pdb temp st rs with
    | error e' => simp [Except.map]
    | ok q =>
      obtain ⟨st2, gs, logs2, calls2⟩ := q
      simp [Except.map]
  · simp [doReplica, hg, hc, ht]

theorem replica_error_containment_witness :
    (discFailCollab.getTrajFiles "x" 320 0 = .error ⟨true, "no traj files"⟩ ∧
      (⟨true, "no traj files"⟩ : PyErr).isAssertion = true ∧
      doReplica discFailCollab "x" 320 AnalyzerState.init 0 =
        .ok (AnalyzerState.init, ⟨0, false⟩, [.error "no traj files"],
          [.getTrajFiles "x" 320 0])) ∧
    (crashCollab.getTrajFiles "x" 320 0 = .ok ["f9.xtc"] ∧
      crashCollab.computeProperties = .ok () ∧
      crashCollab.trajAnalysis ["f9.xtc"] = .error ⟨false, "analyzer crash"⟩ ∧
      doReplica crashCollab "x" 320 AnalyzerState.init 0 =
        .error ⟨false, "analyzer crash"⟩) :=
  ⟨⟨rfl, rfl,
    replica_error_containment.1 discFailCollab "x" 320 AnalyzerState.init 0
      ⟨true, "no traj files"⟩ rfl rfl⟩,
   rfl, rfl, rfl,
   replica_error_containment.2.2 crashCollab "x" 320 AnalyzerState.init 0
     ["f9.xtc"] ⟨false, "analyzer crash"⟩ rfl rfl rfl⟩

theorem doReplicaList_all_fail (collab : Collab) (pdb : String) (temp : Nat) :
    ∀ (rs : List Nat) (st : AnalyzerState),
      (∀ r ∈ rs, ∃ e : PyErr, collab.getTrajFiles pdb temp r = .error e ∧
        e.isAssertion = true) →
      ∃ logs, doReplicaList collab pdb temp st rs =
        .ok (st, rs.map (fun r => ⟨r, false⟩), logs,
          rs.map (fun r => .getTrajFiles pdb temp r))
  | [], st => fun _ => ⟨[], rfl⟩
  | r :: rs, st => fun hall => by
    obtain ⟨e, he, ha⟩ := hall r (List.mem_cons_self r rs)
    obtain ⟨logs, ih⟩ := doReplicaList_all_fail collab pdb temp rs st
      (fun r' hr' => hall r' (List.mem_cons_of_mem r hr'))
    refine ⟨.error e.msg :: logs, ?_⟩
    simp [doReplicaList, doReplica, he, ha, ih]

theorem doTempList_all_fail (collab : Collab) (pdb : String) (nR : Nat) :
    ∀ (ts : List Nat) (st : AnalyzerState),
      (∀ t ∈ ts, ∀ r ∈ List.range nR, ∃ e : PyErr,
        collab.getTrajFiles pdb t r = .error e ∧ e.isAssertion = true) →
      ∃ logs, doTempList collab pdb nR st ts =
        .ok (st, ts.map (fun t =>
            ⟨t, (List.range nR).map (fun r => ⟨r, false⟩)⟩), logs,
          (ts.map (fun t => (List.range nR).map
            (fun r => Call.getTrajFiles pdb t r))).flatten)
  | [], st => fun _ => ⟨[], rfl⟩
  | t :: ts, st => fun hall => by
    obtain ⟨logs1, h1⟩ := doReplicaList_all_fail collab pdb t (List.range nR) st
      (hall t (List.mem_cons_self t ts))
    obtain ⟨logs2, ih⟩ := doTempList_all_fail collab pdb nR ts st
      (fun t' ht' => hall t' (List.mem_cons_of_mem t ht'))
    refine ⟨logs1 ++ logs2, ?_⟩
    simp [doTempList, h1, ih]

/-- C3 (amended): for an identifier whose structure input exists but whose
trajectory discovery fails (with the recoverable `AssertionError`) for every
configured (temperature, replica) combination, the build still writes exactly
one artifact containing the full tree of empty replica groups — but the
molecule-level property computation is never invoked (`computeProperties` runs
only after a successful discovery), so the artifact carries no computed
molecule-level attributes. -/
theorem zero_usable_replicas_artifact (args : Args) (collab : Collab) (fs : FS)
    (pdb : String)
    (hres : fsGet fs (resPath args pdb) = none)
    (hpdb : (fsGet fs (pdbPath args pdb)).isSome = true)
    (hall : ∀ t ∈ args.temperatures, ∀ r ∈ List.range args.numReplicas,
      ∃ e : PyErr, collab.getTrajFiles pdb t r = .error e ∧
        e.isAssertion = true) :
    ∃ logs,
      buildOne args collab fs pdb = .ok (.Written,
        fsSet fs (resPath args pdb)
          (.h5 ⟨"cath-dataset-only-protein", pdb,
            args.temperatures.map (fun t =>
              ⟨t, (List.range args.numReplicas).map (fun r => ⟨r, false⟩)⟩),
            []⟩),
        logs ++ [.info ("Moving temporary file to: " ++ resPath args pdb)],
        Call.analyzerInit (pdbPath args pdb) ::
          ((args.temperatures.map (fun t => (List.range args.numReplicas).map
            (fun r => Call.getTrajFiles pdb t r))).flatten
            ++ [Call.writeToH5Mol])) ∧
      Call.computeProperties ∉
        (Call.analyzerInit (pdbPath args pdb) ::
          ((args.temperatures.map (fun t => (List.range args.numReplicas).map
            (fun r => Call.getTrajFiles pdb t r))).flatten
            ++ [Call.writeToH5Mol])) := by
  obtain ⟨logs, hdt⟩ := doTempList_all_fail collab pdb args.numReplicas
    args.temperatures AnalyzerState.init hall
  refine ⟨logs, ?_, ?_⟩
  · obtain ⟨c, hc⟩ := Option.isSome_iff_exists.mp hpdb
    simp only [AnalyzerState.init] at hdt
    simp [buildOne, hres, hc, hdt, AnalyzerState.init]
  · intro hmem
    simp at hmem

/-- C3 counterexample: identifier `x` has a structure input and every
replica's trajectory discovery fails; one artifact is still written — but it
contains NO molecule-level attributes (`molAttrs = []` although
`pdbAttrs = ["numResidues"]` was requested), because the molecule-level
computation `computeProperties` is never invoked (it is not among the calls
made).  This refutes "the artifact contains the molecule-level attributes
(molecule-level computation succeeds without any replica succeeding)". -/
theorem all_discovery_failed_no_mol_attrs :
    buildOne exArgs discFailCollab exFS "x" =
      .ok (.Written, discFailFS, discFailLogs, discFailCalls) ∧
    discFailArtifact.molAttrs = [] ∧
    exArgs.pdbAttrs = ["numResidues"] ∧
    Call.computeProperties ∉ discFailCalls :=
  ⟨rfl, rfl, rfl, by decide⟩

theorem zero_usable_replicas_artifact_witness :
    (fsGet exFS (resPath exArgs "x") = none ∧
      (fsGet exFS (pdbPath exArgs "x")).isSome = true) ∧
    (∃ logs,
      buildOne exArgs discFailCollab exFS "x" = .ok (.Written,
        fsSet exFS (resPath exArgs "x")
          (.h5 ⟨"cath-dataset-only-protein", "x",
            exArgs.temperatures.map (fun t =>
              ⟨t, (List.range exArgs.numReplicas).map (fun r => ⟨r, false⟩)⟩),
            []⟩),
        logs ++ [.info ("Moving temporary file to: " ++ resPath exArgs "x")],
        Call.analyzerInit (pdbPath exArgs "x") ::
          ((exArgs.temperatures.map (fun t => (List.range exArgs.numReplicas).map
            (fun r => Call.getTrajFiles "x" t r))).flatten
            ++ [Call.writeToH5Mol])) ∧
      Call.computeProperties ∉
        (Call.analyzerInit (pdbPath exArgs "x") ::
          ((exArgs.temperatures.map (fun t => (List.range exArgs.numReplicas).map
            (fun r => Call.getTrajFiles "x" t r))).flatten
            ++ [Call.writeToH5Mol]))) :=
  ⟨⟨rfl, rfl⟩,
   zero_usable_replicas_artifact exArgs discFailCollab exFS "x" rfl rfl
     (fun _ _ _ _ => ⟨⟨true, "no traj files"⟩, rfl, rfl⟩)⟩

theorem data_reverse_h5 (s : String) :
    (s ++ ".h5").data.reverse = '5' :: 'h' :: '.' :: s.data.reverse := by
  rw [String.data_append, List.reverse_append]
  rfl

theorem data_reverse_pdb (s : String) :
    (s ++ ".pdb").data.reverse = 'b' :: 'd' :: 'p' :: '.' :: s.data.reverse := by
  rw [String.data_append, List.reverse_append]
  rfl

/-- The final output path (ending in `.h5`) never coincides with a structure
input path (ending in `.pdb`). -/
theorem resPath_ne_pdbPath (a b : Args) (p q : String) :
    resPath a p ≠ pdbPath b q := by
  intro h
  have h1 : (resPath a p).data.reverse = (pdbPath b q).data.reverse := by rw [h]
  rw [resPath, pdbPath, data_reverse_h5, data_reverse_pdb] at h1
  injection h1 with h2 _
  exact absurd h2 (by decide)

/-- Distinct identifiers get distinct final output paths. -/
theorem resPath_inj (a : Args) (p q : String) (h : resPath a p = resPath a q) :
    p = q := by
  have h1 := congrArg String.data h
  simp only [resPath, String.data_append] at h1
  have h2 := List.append_cancel_right h1
  have h3 := List.append_cancel_left h2
  exact String.ext h3

theorem fsGet_append_isSome_right (L fs : FS) (p : String)
    (h : (fsGet fs p).isSome = true) : (fsGet (L ++ fs) p).isSome = true := by
  induction L with
  | nil => simpa using h
  | cons e L ih =>
    obtain ⟨q, c⟩ := e
    simp only [List.cons_append, fsGet]
    split
    · rfl
    · exact ih

theorem fsGet_append_eq_of_not_mem (L fs : FS) (p : String)
    (h : ∀ e ∈ L, e.1 ≠ p) : fsGet (L ++ fs) p = fsGet fs p := by
  induction L with
  | nil => rfl
  | cons e L ih =>
    obtain ⟨q, c⟩ := e
    have hq : q ≠ p := h (q, c) (List.mem_cons_self _ _)
    simp only [List.cons_append, fsGet, if_neg hq]
    exact ih (fun e' he' => h e' (List.mem_cons_of_mem _ he'))

/-- Case analysis of one molecule build: it either skips because the artifact
exists (filesystem untouched), skips because the structure input is missing
(filesystem untouched), or writes exactly one new file at the final output
path (which requires the structure input to be present). -/
theorem buildOne_outcome_spec (args : Args) (collab : Collab) (fs : FS)
    (pdb : String) (out : Outcome) (fs' : FS) (logs : List LogEntry)
    (calls : List Call)
    (h : buildOne args collab fs pdb = .ok (out, fs', logs, calls)) :
    (out = .SkippedExists ∧ fs' = fs ∧
      (fsGet fs (resPath args pdb)).isSome = true) ∨
    (out = .SkippedMissingInput ∧ fs' = fs ∧
      fsGet fs (resPath args pdb) = none ∧
      fsGet fs (pdbPath args pdb) = none) ∨
    (out = .Written ∧ (∃ c, fs' = (resPath args pdb, c) :: fs) ∧
      fsGet fs (resPath args pdb) = none ∧
      (fsGet fs (pdbPath args pdb)).isSome = true) := by
  simp only [buildOne] at h
  split at h
  · rename_i hsome
    left
    simp only [Except.ok.injEq, Prod.mk.injEq] at h
    obtain ⟨ho, hf, -, -⟩ := h
    exact ⟨ho.symm, hf.symm, hsome⟩
  · rename_i hnotsome
    split at h
    · rename_i hnone
      right; left
      simp only [Except.ok.injEq, Prod.mk.injEq] at h
      obtain ⟨ho, hf, -, -⟩ := h
      refine ⟨ho.symm, hf.symm, ?_, Option.isNone_iff_eq_none.mp hnone⟩
      cases hg : fsGet fs (resPath args pdb) with
      | none => rfl
      | some c => exact absurd (by rw [hg]; rfl) hnotsome
    · rename_i hnotnone
      cases hdt : doTempList collab pdb args.numReplicas AnalyzerState.init
        args.temperatures with
      | error e => simp only [hdt] at h; exact absurd h (by simp)
      | ok q =>
        obtain ⟨st, tgs, logs0, calls0⟩ := q
        simp only [hdt, Except.ok.injEq, Prod.mk.injEq] at h
        obtain ⟨ho, hf, -, -⟩ := h
        right; right
        refine ⟨ho.symm, ⟨_, hf.symm⟩, ?_, ?_⟩
        · cases hg : fsGet fs (resPath args pdb) with
          | none => rfl
          | some c => exact absurd (by rw [hg]; rfl) hnotsome
        · cases hg : fsGet fs (pdbPath args pdb) with
          | none => exact absurd (by rw [hg]; rfl) hnotnone
          | some c => rfl

theorem runList_spec (args : Args) (collab : Collab) :
    ∀ (ids : List String) (fs : FS) (outs : List Outcome) (fs1 : FS),
      runList args collab fs ids = .ok (outs, fs1) →
      (∃ L : FS, fs1 = L ++ fs ∧
        ∀ e ∈ L, ∃ id, id ∈ ids ∧ e.1 = resPath args id ∧
          (fsGet fs (pdbPath args id)).isSome = true) ∧
      List.Forall₂ (fun id out =>
        ((out = Outcome.Written ∨ out = Outcome.SkippedExists) →
          (fsGet fs1 (resPath args id)).isSome = true) ∧
        (out = Outcome.SkippedMissingInput →
          fsGet fs1 (pdbPath args id) = none ∧
          fsGet fs1 (resPath args id) = none)) ids outs
  | [], fs, outs, fs1 => fun h => by
    simp only [runList, Except.ok.injEq, Prod.mk.injEq] at h
    obtain ⟨houts, hfs⟩ := h
    subst houts; subst hfs
    exact ⟨⟨[], rfl, by simp⟩, List.Forall₂.nil⟩
  | id :: ids, fs, outs, fs1 => fun h => by
    simp only [runList] at h
    cases hb : buildOne args collab fs id with
    | error e => simp only [hb] at h; exact absurd h (by simp)
    | ok q =>
      obtain ⟨out, fsMid, logsB, callsB⟩ := q
      simp only [hb] at h
      cases hr : runList args collab fsMid ids with
      | error e => simp only [hr] at h; exact absurd h (by simp)
      | ok r =>
        obtain ⟨outs2, fs2⟩ := r
        simp only [hr, Except.ok.injEq, Prod.mk.injEq] at h
        obtain ⟨houts, hfs⟩ := h
        subst houts; subst hfs
        obtain ⟨⟨L, hLeq, hLchar⟩, hF2⟩ :=
          runList_spec args collab ids fsMid outs2 _ hr
        rcases buildOne_outcome_spec args collab fs id out fsMid logsB callsB hb
          with ⟨ho, hfm, hsome⟩ | ⟨ho, hfm, hresn, hpdbn⟩ | ⟨ho, ⟨c, hfm⟩, hresn, hpdbS⟩
        · subst ho
          rw [hfm] at hLeq hLchar
          refine ⟨⟨L, hLeq, ?_⟩, List.Forall₂.cons ⟨?_, ?_⟩ hF2⟩
          · intro e he
            obtain ⟨i, hi, hk, hs⟩ := hLchar e he
            exact ⟨i, List.mem_cons_of_mem _ hi, hk, hs⟩
          · intro _
            rw [hLeq]
            exact fsGet_append_isSome_right L fs _ hsome
          · nofun
        · subst ho
          rw [hfm] at hLeq hLchar
          refine ⟨⟨L, hLeq, ?_⟩, List.Forall₂.cons ⟨?_, ?_⟩ hF2⟩
          · intro e he
            obtain ⟨i, hi, hk, hs⟩ := hLchar e he
            exact ⟨i, List.mem_cons_of_mem _ hi, hk, hs⟩
          · intro hor
            rcases hor with hc | hc <;> exact absurd hc (by simp)
          · intro _
            constructor
            · rw [hLeq, fsGet_append_eq_of_not_mem]
              · exact hpdbn
              · intro e he
                obtain ⟨i, -, hk, -⟩ := hLchar e he
                rw [hk]
                exact resPath_ne_pdbPath args args i id
            · rw [hLeq, fsGet_append_eq_of_not_mem]
              · exact hresn
              · intro e he heq
                obtain ⟨i, -, hk, hs⟩ := hLchar e he
                rw [hk] at heq
                have hii := resPath_inj args i id heq
                subst hii
                rw [hpdbn] at hs
                exact absurd hs (by simp)
        · subst ho; subst hfm
          have hfsGetMid : ∀ i : String,
              fsGet ((resPath args id, c) :: fs) (pdbPath args i) =
                fsGet fs (pdbPath args i) := by
            intro i
            simp only [fsGet, if_neg (resPath_ne_pdbPath args args id i)]
          refine ⟨⟨L ++ [(resPath args id, c)], ?_, ?_⟩,
            List.Forall₂.cons ⟨?_, ?_⟩ hF2⟩
          · rw [hLeq, List.append_assoc]
            rfl
          · intro e he
            rcases List.mem_append.mp he with heL | heX
            · obtain ⟨i, hi, hk, hs⟩ := hLchar e heL
              rw [hfsGetMid i] at hs
              exact ⟨i, List.mem_cons_of_mem _ hi, hk, hs⟩
            · rw [List.mem_singleton.mp heX]
              exact ⟨id, List.mem_cons_self _ _, rfl, hpdbS⟩
          · intro _
            rw [hLeq]
            apply fsGet_append_isSome_right
            simp [fsGet]
          · nofun

theorem runList_second (args : Args) (collab : Collab) :
    ∀ (ids : List String) (fs1 : FS) (outs1 : List Outcome),
      List.Forall₂ (fun id out =>
        ((out = Outcome.Written ∨ out = Outcome.SkippedExists) →
          (fsGet fs1 (resPath args id)).isSome = true) ∧
        (out = Outcome.SkippedMissingInput →
          fsGet fs1 (pdbPath args id) = none ∧
          fsGet fs1 (resPath args id) = none)) ids outs1 →
      runList args collab fs1 ids = .ok (outs1.map secondOutcome, fs1)
  | [], fs1, outs1 => fun h => by cases h; rfl
  | id :: ids, fs1, outs1 => fun h => by
    cases h with
    | cons hhead htail =>
      rename_i out outs'
      obtain ⟨h1, h2⟩ := hhead
      have ih := runList_second args collab ids fs1 outs' htail
      cases out with
      | Written =>
        have hsome := h1 (Or.inl rfl)
        have hb : buildOne args collab fs1 id = .ok (.SkippedExists, fs1,
            [.info ("h5py dataset for " ++ id ++ " already exists, skipping")],
            []) := by
          simp [buildOne, hsome]
        simp only [runList, hb, ih, List.map_cons, secondOutcome]
      | SkippedExists =>
        have hsome := h1 (Or.inr rfl)
        have hb : buildOne args collab fs1 id = .ok (.SkippedExists, fs1,
            [.info ("h5py dataset for " ++ id ++ " already exists, skipping")],
            []) := by
          simp [buildOne, hsome]
        simp only [runList, hb, ih, List.map_cons, secondOutcome]
      | SkippedMissingInput =>
        obtain ⟨hpdbn, hresn⟩ := h2 rfl
        have hb : buildOne args collab fs1 id = .ok (.SkippedMissingInput, fs1,
            [.warning (id ++ " does not exist")], []) := by
          simp [buildOne, hresn, hpdbn]
        simp only [runList, hb, ih, List.map_cons, secondOutcome]

/-- C5 counterexample: the parenthetical "all identifiers resolve to
`SkippedExists`" on the second run fails.  A first run over `["x", "y"]`
writes `x` and skips `y` for missing structure input; the second run over the
unchanged filesystem resolves `y` to `SkippedMissingInput`, not
`SkippedExists` (though it indeed produces no new artifact and leaves the
filesystem identical). -/
theorem second_run_outcome_cex :
    runList exArgs okCollab exFS ["x", "y"] =
      .ok ([.Written, .SkippedMissingInput], okFS1) ∧
    runList exArgs okCollab okFS1 ["x", "y"] =
      .ok ([.SkippedExists, .SkippedMissingInput], okFS1) ∧
    Outcome.SkippedMissingInput ≠ Outcome.SkippedExists :=
  ⟨rfl, rfl, by decide⟩

/-- C5 (amended): a build over an identifier whose artifact already exists
returns `SkippedExists`, makes no collaborator call, and leaves the filesystem
untouched.  Consequently a second full run over the same identifier list with
unchanged inputs returns the filesystem literally unchanged — no new
artifacts, every existing artifact byte-identical — with every identifier that
was written (or already existed) resolving to `SkippedExists`, and every
identifier skipped for missing input resolving to `SkippedMissingInput`
again. -/
theorem build_idempotent_second_run (args : Args) (collab : Collab) :
    (∀ (fs : FS) (pdb : String), (fsGet fs (resPath args pdb)).isSome = true →
      buildOne args collab fs pdb = .ok (.SkippedExists, fs,
        [.info ("h5py dataset for " ++ pdb ++ " already exists, skipping")],
        [])) ∧
    (∀ (ids : List String) (fs fs1 : FS) (outs1 : List Outcome),
      runList args collab fs ids = .ok (outs1, fs1) →
      runList args collab fs1 ids = .ok (outs1.map secondOutcome, fs1)) := by
  refine ⟨fun fs pdb h => by simp [buildOne, h],
    fun ids fs fs1 outs1 h => ?_⟩
  exact runList_second args collab ids fs1 outs1
    (runList_spec args collab ids fs outs1 fs1 h).2

theorem build_idempotent_second_run_witness :
    ((fsGet okFS1 (resPath exArgs "x")).isSome = true ∧
      buildOne exArgs okCollab okFS1 "x" = .ok (.SkippedExists, okFS1,
        [.info ("h5py dataset for " ++ "x" ++ " already exists, skipping")],
        [])) ∧
    (runList exArgs okCollab exFS ["x", "y"] =
        .ok ([.Written, .SkippedMissingInput], okFS1) ∧
      runList exArgs okCollab okFS1 ["x", "y"] =
        .ok (([Outcome.Written, Outcome.SkippedMissingInput]).map secondOutcome,
          okFS1)) :=
  ⟨⟨rfl, (build_idempotent_second_run exArgs okCollab).1 okFS1 "x" rfl⟩,
   rfl,
   (build_idempotent_second_run exArgs okCollab).2 ["x", "y"] exFS okFS1
     [.Written, .SkippedMissingInput] rfl⟩
